import Mathlib

/-!
Verification of the tax computation engine of the `tax-calculator` repository
(`src/app/page.tsx`). The calculation functions of the page component are
embedded as pure Lean functions over rational numbers; the component state
records (salary details, deductions) become explicit input structures.
-/

/-- One progressive tax bracket, as in the `TaxSlab` type of `page.tsx`:
an inclusive lower bound `min`, an inclusive upper bound `max`
(`none` stands for the JavaScript `Infinity` of the final slab), a percentage
`rate`, and optional `fixedAmount` and `surcharge` fields. -/
structure TaxSlab where
  min : ℚ
  max : Option ℚ
  rate : ℚ
  fixedAmount : Option ℚ := none
  surcharge : Option ℚ := none

/-- New-regime slab table `NEW_REGIME_SLABS` of `page.tsx`. -/
def NEW_REGIME_SLABS : List TaxSlab := [
  { min := 0, max := some 400000, rate := 0 },
  { min := 400001, max := some 800000, rate := 5 },
  { min := 800001, max := some 1200000, rate := 10 },
  { min := 1200001, max := some 1600000, rate := 15 },
  { min := 1600001, max := some 2000000, rate := 20 },
  { min := 2000001, max := some 2400000, rate := 25 },
  { min := 2400001, max := none, rate := 30 }
]

/-- Old-regime slab table `OLD_REGIME_SLABS` of `page.tsx`. -/
def OLD_REGIME_SLABS : List TaxSlab := [
  { min := 0, max := some 300000, rate := 0 },
  { min := 300001, max := some 700000, rate := 5 },
  { min := 700001, max := some 1000000, rate := 10 },
  { min := 1000001, max := some 1200000, rate := 15 },
  { min := 1200001, max := some 1500000, rate := 20 },
  { min := 1500001, max := none, rate := 30 }
]

/-- Standard deduction constant for the new regime (`STANDARD_DEDUCTION`). -/
def STANDARD_DEDUCTION : ℚ := 75000

/-- Standard deduction constant for the old regime. -/
def OLD_REGIME_STANDARD_DEDUCTION : ℚ := 50000

/-- Combined Section 80C statutory limit. -/
def SECTION_80C_LIMIT : ℚ := 150000

/-- Section 80CCD (NPS) limit. -/
def SECTION_80CCD_LIMIT : ℚ := 50000

/-- Section 80TTA (savings interest) limit. -/
def SECTION_80TTA_LIMIT : ℚ := 10000

/-- Section 80G (donations) limit. -/
def SECTION_80G_LIMIT : ℚ := 100000

/-- Salary details state record of the page component. -/
structure SalaryDetails where
  basic : ℚ
  hraReceived : ℚ
  rentPaid : ℚ
  metroCity : Bool

/-- Section 80D sub-record of the deductions state. -/
structure Section80D where
  self : ℚ
  parents : ℚ
  parentsSenior : Bool

/-- Home-loan sub-record of the deductions state. -/
structure HomeLoan where
  principal : ℚ
  interest : ℚ

/-- Deductions state record of the page component, field for field. -/
structure Deductions where
  section80C : ℚ
  section80D : Section80D
  section80CCD : ℚ
  section80TTA : ℚ
  section80G : ℚ
  hra : ℚ
  nps : ℚ
  educationLoan : ℚ
  homeLoan : HomeLoan

/-- HRA exemption, embedding `calculateHRA` of `page.tsx`: the least of
the three rules (actual HRA received; 50% of basic for metro cities else
40%; rent paid minus 10% of basic, floored at zero). -/
def calculateHRA (salaryDetails : SalaryDetails) : ℚ :=
  min salaryDetails.hraReceived
    (min ((if salaryDetails.metroCity then (1 : ℚ)/2 else 2/5) * salaryDetails.basic)
      (max 0 (salaryDetails.rentPaid - 1/10 * salaryDetails.basic)))

/-- Result record of `calculateHomeLoanDeductions`. -/
structure HomeLoanDeductions where
  principal : ℚ
  interest : ℚ
  total : ℚ

/-- Home-loan deductions, embedding `calculateHomeLoanDeductions` of
`page.tsx`: the principal component is `min(principal, SECTION_80C_LIMIT -
section80C)`, the interest component is `min(interest, 200000)`. -/
def calculateHomeLoanDeductions (deductions : Deductions) : HomeLoanDeductions :=
  { principal := min deductions.homeLoan.principal (SECTION_80C_LIMIT - deductions.section80C),
    interest := min deductions.homeLoan.interest 200000,
    total := min deductions.homeLoan.principal (SECTION_80C_LIMIT - deductions.section80C) +
      min deductions.homeLoan.interest 200000 }

theorem calculateHomeLoanDeductions_principal (deductions : Deductions) :
    (calculateHomeLoanDeductions deductions).principal =
      min deductions.homeLoan.principal (SECTION_80C_LIMIT - deductions.section80C) := rfl

theorem calculateHomeLoanDeductions_interest (deductions : Deductions) :
    (calculateHomeLoanDeductions deductions).interest =
      min deductions.homeLoan.interest 200000 := rfl

/-- Amount of income taxed inside one slab, as computed in the loop body of
`calculateTax`: `min(remainingIncome, max === Infinity ? remainingIncome :
max - min + 1)`. -/
def taxableInSlab (remainingIncome : ℚ) (slab : TaxSlab) : ℚ :=
  min remainingIncome
    (match slab.max with
     | none => remainingIncome
     | some m => m - slab.min + 1)

/-- The slab loop of `calculateTax` of `page.tsx`, with the running total and
remaining income as explicit accumulators. Each iteration breaks when the
remaining income is not positive, adds `fixedAmount || 0` plus
`taxableAmount * rate / 100` to the running total, applies a (truthy, i.e.
nonzero) surcharge percentage to the running total, and subtracts the taxed
amount from the remaining income. -/
def calculateTaxGo : ℚ → ℚ → List TaxSlab → ℚ
  | totalTax, _, [] => totalTax
  | totalTax, remainingIncome, slab :: rest =>
    if remainingIncome ≤ 0 then totalTax
    else
      let taxableAmount := taxableInSlab remainingIncome slab
      let baseTax := slab.fixedAmount.getD 0
      let rateTax := taxableAmount * slab.rate / 100
      let afterSlab := totalTax + baseTax + rateTax
      let afterSurcharge :=
        match slab.surcharge with
        | none => afterSlab
        | some s => if s = 0 then afterSlab else afterSlab + afterSlab * s / 100
      calculateTaxGo afterSurcharge (remainingIncome - taxableAmount) rest

/-- Progressive slab tax, embedding `calculateTax` of `page.tsx`. -/
def calculateTax (income : ℚ) (slabs : List TaxSlab) : ℚ :=
  calculateTaxGo 0 income slabs

/-- Section 80D deduction as computed inside `calculateOldRegimeTax` of
`page.tsx`: the raw premium sum capped at `selfAndFamilyLimit +
parentsLimit`, where the parents limit is 50000 for senior-citizen parents
and 25000 otherwise. -/
def section80DDeduction (s80d : Section80D) : ℚ :=
  let selfAndFamilyLimit : ℚ := 25000
  let parentsLimit : ℚ := if s80d.parentsSenior then 50000 else 25000
  let total80DLimit := selfAndFamilyLimit + parentsLimit
  min total80DLimit (s80d.self + s80d.parents)

/-- Combined Section 80C term subtracted in the taxable-income expression of
`calculateOldRegimeTax`: `min(section80C + homeLoanDeductions.principal,
SECTION_80C_LIMIT)`. -/
def combined80C (deductions : Deductions) : ℚ :=
  min (deductions.section80C + (calculateHomeLoanDeductions deductions).principal)
    SECTION_80C_LIMIT

/-- Old-regime tax, embedding `calculateOldRegimeTax` of `page.tsx`. -/
def calculateOldRegimeTax (income : ℚ) (deductions : Deductions)
    (salaryDetails : SalaryDetails) : ℚ :=
  let hraExemption := calculateHRA salaryDetails
  let homeLoanDeductions := calculateHomeLoanDeductions deductions
  let taxableIncome := max 0 (income
    - OLD_REGIME_STANDARD_DEDUCTION
    - combined80C deductions
    - section80DDeduction deductions.section80D
    - min deductions.section80CCD SECTION_80CCD_LIMIT
    - min deductions.section80TTA SECTION_80TTA_LIMIT
    - min deductions.section80G SECTION_80G_LIMIT
    - hraExemption
    - deductions.nps
    - deductions.educationLoan
    - homeLoanDeductions.interest)
  calculateTax taxableIncome OLD_REGIME_SLABS

/-- New-regime tax as the page computes it in `handleIncomeChange`:
`calculateTax(numValue, NEW_REGIME_SLABS)` applied directly to the entered
income. -/
def newRegimeTax (income : ℚ) : ℚ :=
  calculateTax income NEW_REGIME_SLABS

/-- Section 80D amount used in the "Total Deductions (Old Regime)" summary
display of the page: `min(self + parents, parentsSenior ? 75000 : 50000)`. -/
def totalDeductions80DDisplay (s80d : Section80D) : ℚ :=
  min (s80d.self + s80d.parents) (if s80d.parentsSenior then 75000 else 50000)

/-- Recommended-regime label as rendered by the page:
`newRegimeTax < oldRegimeTax ? "New Regime" : "Old Regime"`. -/
def recommendedRegime (newTax oldTax : ℚ) : String :=
  if newTax < oldTax then "New Regime" else "Old Regime"

/-- Slab-tax loop as the specification words it: in each slab the taxed
amount is `min(remainingIncome, slabWidth)` where the width is
`upperBound - lowerBound + 1` for a bounded slab, while an unbounded slab
consumes all remaining income; per-slab tax is `fixedAmount (default 0) +
amount * rate / 100`, a nonzero surcharge applies to the cumulative total,
and the loop stops once remaining income reaches zero. -/
def slabTaxSpecGo : ℚ → ℚ → List TaxSlab → ℚ
  | totalTax, _, [] => totalTax
  | totalTax, remainingIncome, slab :: rest =>
    if remainingIncome ≤ 0 then totalTax
    else
      let taxableAmount :=
        match slab.max with
        | none => remainingIncome
        | some m => min remainingIncome (m - slab.min + 1)
      let afterSlab := totalTax + slab.fixedAmount.getD 0 + taxableAmount * slab.rate / 100
      let afterSurcharge :=
        match slab.surcharge with
        | none => afterSlab
        | some s => if s = 0 then afterSlab else afterSlab + afterSlab * s / 100
      slabTaxSpecGo afterSurcharge (remainingIncome - taxableAmount) rest

/-- Slab tax following the specification's description, to be compared with
the source embedding `calculateTax`. -/
def slabTaxSpec (income : ℚ) (slabs : List TaxSlab) : ℚ :=
  slabTaxSpecGo 0 income slabs

/-- Claim C1: the spec's contract says the new-regime tax equals the slab tax
on `max(0, grossIncome - 75000)`, but `handleIncomeChange` passes the raw
income to `calculateTax` without subtracting `STANDARD_DEDUCTION`. At gross
income 1200000 the code produces 59999.9 while the contract, which the
page's own breakdown display also presents, requires 52499.9. -/
theorem newRegimeTax_omits_standard_deduction :
    newRegimeTax 1200000 = 599999 / 10 ∧
    calculateTax (max 0 ((1200000 : ℚ) - STANDARD_DEDUCTION)) NEW_REGIME_SLABS = 524999 / 10 ∧
    newRegimeTax 1200000 ≠
      calculateTax (max 0 ((1200000 : ℚ) - STANDARD_DEDUCTION)) NEW_REGIME_SLABS := by
  norm_num [newRegimeTax, calculateTax, calculateTaxGo, taxableInSlab, NEW_REGIME_SLABS,
    STANDARD_DEDUCTION, min_def, max_def]

/-- Claim C2, counterexample: the slab tax of the new-regime table at taxable
income 400001 is 0, not 0.05, because the zero-rated first slab's inclusive
width `400000 - 0 + 1` absorbs all 400001 units. -/
theorem calculateTax_at_400001_ne_five_hundredths :
    calculateTax 400001 NEW_REGIME_SLABS ≠ 1 / 20 := by
  norm_num [calculateTax, calculateTaxGo, taxableInSlab, NEW_REGIME_SLABS, min_def]

/-- Claim C2, amended: the slab tax over the new-regime table is 0 at taxable
income 400000 and still 0 at 400001 (the first slab's `+1` width absorbs the
400001st unit); the first amount taxed at the 5% rate is at 400002, which
yields 0.05. -/
theorem calculateTax_new_regime_boundary :
    calculateTax 400000 NEW_REGIME_SLABS = 0 ∧
    calculateTax 400001 NEW_REGIME_SLABS = 0 ∧
    calculateTax 400002 NEW_REGIME_SLABS = 1 / 20 := by
  norm_num [calculateTax, calculateTaxGo, taxableInSlab, NEW_REGIME_SLABS, min_def]

/-- Claim C3, counterexample: with self premium 30000, parents premium 40000
and senior-citizen parents, the Section 80D deduction used in the old-regime
taxable-income computation is not 75000. -/
theorem section80DDeduction_example_ne_75000 :
    section80DDeduction ⟨30000, 40000, true⟩ ≠ 75000 := by
  norm_num [section80DDeduction, min_def]

/-- Claim C3, amended: with self premium 30000, parents premium 40000 and
senior-citizen parents, the Section 80D deduction used in the old-regime
taxable-income computation is the raw premium sum 70000, because the code
caps only the total `self + parents` at the combined limit 75000 and applies
no per-component caps. -/
theorem section80DDeduction_example_eq_raw_sum :
    section80DDeduction ⟨30000, 40000, true⟩ = 30000 + 40000 := by
  norm_num [section80DDeduction, min_def]

theorem section80D_display_eq_computed_aux (s80d : Section80D) :
    totalDeductions80DDisplay s80d = section80DDeduction s80d := by
  rcases s80d with ⟨self, parents, senior⟩
  cases senior <;>
    simp only [totalDeductions80DDisplay, section80DDeduction, Bool.false_eq_true,
      if_false, if_true] <;>
    rw [min_comm] <;> norm_num

/-- Claim C4, counterexample: there is no deduction input on which the
Section 80D amount of the "Total Deductions" summary display differs from
the Section 80D deduction used in the old-regime taxable-income computation;
the two formulas are extensionally equal. -/
theorem display80D_divergence_impossible :
    ¬ ∃ s80d : Section80D, totalDeductions80DDisplay s80d ≠ section80DDeduction s80d := by
  rintro ⟨s80d, hne⟩
  exact hne (section80D_display_eq_computed_aux s80d)

/-- Claim C4, amended: for every deduction input, the Section 80D amount in
the "Total Deductions" summary display equals the Section 80D deduction used
in the authoritative old-regime taxable-income computation — the display's
`min(self + parents, parentsSenior ? 75000 : 50000)` and the computation's
`min(25000 + (parentsSenior ? 50000 : 25000), self + parents)` coincide. -/
theorem display80D_eq_section80DDeduction (s80d : Section80D) :
    totalDeductions80DDisplay s80d = section80DDeduction s80d :=
  section80D_display_eq_computed_aux s80d

/-- Claim C10: with `section80C = 200000`, strictly above `SECTION_80C_LIMIT`,
and a strictly positive home-loan principal 10000, the per-component
home-loan principal deduction exposed in the breakdown,
`min(principal, SECTION_80C_LIMIT - section80C)`, is `-50000`, strictly
negative, although every deduction input is non-negative. -/
theorem homeLoanPrincipalDeduction_negative :
    SECTION_80C_LIMIT < (200000 : ℚ) ∧ (0 : ℚ) < 10000 ∧
    (calculateHomeLoanDeductions
        ⟨200000, ⟨0, 0, false⟩, 0, 0, 0, 0, 0, 0, ⟨10000, 0⟩⟩).principal = -50000 ∧
    (calculateHomeLoanDeductions
        ⟨200000, ⟨0, 0, false⟩, 0, 0, 0, 0, 0, 0, ⟨10000, 0⟩⟩).principal < 0 := by
  norm_num [calculateHomeLoanDeductions, SECTION_80C_LIMIT, min_def]

/-- Claim C5: when a slab carries a nonzero surcharge percentage `s`, one
step of the `calculateTax` loop computes the surcharge on the cumulative
total so far — the incoming running total plus this slab's own base and
rate contribution — and hands that surcharged total to the remaining slabs
as the new running total. -/
theorem calculateTaxGo_surcharge_on_cumulative
    (totalTax remainingIncome : ℚ) (slab : TaxSlab) (rest : List TaxSlab) (s : ℚ)
    (hsur : slab.surcharge = some s) (hs : s ≠ 0) (hr : 0 < remainingIncome) :
    calculateTaxGo totalTax remainingIncome (slab :: rest) =
      calculateTaxGo
        ((totalTax + slab.fixedAmount.getD 0 +
            taxableInSlab remainingIncome slab * slab.rate / 100) +
          (totalTax + slab.fixedAmount.getD 0 +
            taxableInSlab remainingIncome slab * slab.rate / 100) * s / 100)
        (remainingIncome - taxableInSlab remainingIncome slab) rest := by
  simp [calculateTaxGo, hsur, hs, not_le.mpr hr]

/-- Claim C5, witness: a concrete slab with a 20% surcharge, starting from a
running total of 100 over remaining income 50 at rate 10%, yields
(100 + 5) * 1.2 = 126. -/
theorem calculateTaxGo_surcharge_on_cumulative_witness :
    calculateTaxGo 100 50
      [{ min := 0, max := none, rate := 10, fixedAmount := none, surcharge := some 20 }]
      = 126 := by
  rw [calculateTaxGo_surcharge_on_cumulative 100 50
    { min := 0, max := none, rate := 10, fixedAmount := none, surcharge := some 20 }
    [] 20 rfl (by norm_num) (by norm_num)]
  norm_num [calculateTaxGo, taxableInSlab]

theorem calculateTaxGo_eq_slabTaxSpecGo (slabs : List TaxSlab) :
    ∀ totalTax remainingIncome : ℚ,
      calculateTaxGo totalTax remainingIncome slabs =
        slabTaxSpecGo totalTax remainingIncome slabs := by
  induction slabs with
  | nil => intro t r; rfl
  | cons slab rest ih =>
    intro t r
    by_cases h : r ≤ 0
    · simp [calculateTaxGo, slabTaxSpecGo, h]
    · cases hm : slab.max with
      | none =>
        simp only [calculateTaxGo, slabTaxSpecGo, taxableInSlab, hm, min_self, if_neg h]
        exact ih _ _
      | some m =>
        simp only [calculateTaxGo, slabTaxSpecGo, taxableInSlab, hm, if_neg h]
        exact ih _ _

/-- Claim C6: for every non-negative income, the source slab loop
(`calculateTax`) agrees with the slab tax as the specification describes it:
slabs processed in order, each bounded slab taxing
`min(remainingIncome, upperBound - lowerBound + 1)` via the inclusive `+1`
width, the unbounded final slab consuming all remaining income, and the loop
stopping once remaining income reaches zero. -/
theorem calculateTax_eq_slabTaxSpec (income : ℚ) (slabs : List TaxSlab)
    (h : 0 ≤ income) :
    calculateTax income slabs = slabTaxSpec income slabs :=
  calculateTaxGo_eq_slabTaxSpecGo slabs 0 income

/-- Claim C6, witness: at income 500000 over the new-regime table both
formulations agree and produce 4999.95. -/
theorem calculateTax_eq_slabTaxSpec_witness :
    0 ≤ (500000 : ℚ) ∧
    calculateTax 500000 NEW_REGIME_SLABS = slabTaxSpec 500000 NEW_REGIME_SLABS ∧
    slabTaxSpec 500000 NEW_REGIME_SLABS = 99999 / 20 := by
  refine ⟨by norm_num, calculateTax_eq_slabTaxSpec 500000 NEW_REGIME_SLABS (by norm_num), ?_⟩
  norm_num [slabTaxSpec, slabTaxSpecGo, NEW_REGIME_SLABS, min_def]

/-- Claim C7: for non-negative `section80C` and home-loan principal, the
combined Section 80C term subtracted in the old-regime taxable-income
computation equals `min(section80C + homeLoanPrincipal, SECTION_80C_LIMIT)`:
the per-component clamp `min(principal, SECTION_80C_LIMIT - section80C)`
composed with the outer cap realizes exactly the shared ceiling. -/
theorem combined80C_eq_capped_sum (deductions : Deductions)
    (hc : 0 ≤ deductions.section80C) (hp : 0 ≤ deductions.homeLoan.principal) :
    combined80C deductions =
      min (deductions.section80C + deductions.homeLoan.principal) SECTION_80C_LIMIT := by
  unfold combined80C
  rw [calculateHomeLoanDeductions_principal]
  rcases le_total deductions.homeLoan.principal
    (SECTION_80C_LIMIT - deductions.section80C) with h | h
  · rw [min_eq_left h]
  · rw [min_eq_right h]
    have h2 : deductions.section80C + (SECTION_80C_LIMIT - deductions.section80C) =
        SECTION_80C_LIMIT := by ring
    rw [h2, min_self, eq_comm]
    exact min_eq_right (by linarith)

/-- Claim C7, witness: section80C = 100000 and home-loan principal = 100000
give a combined deduction of exactly 150000, the statutory limit, not
200000. -/
theorem combined80C_eq_capped_sum_witness :
    0 ≤ (100000 : ℚ) ∧
    combined80C ⟨100000, ⟨0, 0, false⟩, 0, 0, 0, 0, 0, 0, ⟨100000, 0⟩⟩ =
      min ((100000 : ℚ) + 100000) SECTION_80C_LIMIT ∧
    combined80C ⟨100000, ⟨0, 0, false⟩, 0, 0, 0, 0, 0, 0, ⟨100000, 0⟩⟩ = 150000 := by
  refine ⟨by norm_num,
    combined80C_eq_capped_sum ⟨100000, ⟨0, 0, false⟩, 0, 0, 0, 0, 0, 0, ⟨100000, 0⟩⟩
      (by norm_num) (by norm_num), ?_⟩
  norm_num [combined80C, calculateHomeLoanDeductions, SECTION_80C_LIMIT, min_def]

/-- Claim C8: for every salary-details record with non-negative amounts, the
HRA exemption is a lower bound of the three rule candidates (HRA received;
50% of basic if metro else 40%; `max(0, rentPaid - 0.10 * basic)`), is equal
to one of them — hence is their minimum — and is non-negative. -/
theorem calculateHRA_least_of_three (salaryDetails : SalaryDetails)
    (hb : 0 ≤ salaryDetails.basic) (hh : 0 ≤ salaryDetails.hraReceived)
    (hr : 0 ≤ salaryDetails.rentPaid) :
    (calculateHRA salaryDetails ≤ salaryDetails.hraReceived ∧
     calculateHRA salaryDetails ≤
       (if salaryDetails.metroCity then (1 : ℚ)/2 else 2/5) * salaryDetails.basic ∧
     calculateHRA salaryDetails ≤
       max 0 (salaryDetails.rentPaid - 1/10 * salaryDetails.basic)) ∧
    (calculateHRA salaryDetails = salaryDetails.hraReceived ∨
     calculateHRA salaryDetails =
       (if salaryDetails.metroCity then (1 : ℚ)/2 else 2/5) * salaryDetails.basic ∨
     calculateHRA salaryDetails =
       max 0 (salaryDetails.rentPaid - 1/10 * salaryDetails.basic)) ∧
    0 ≤ calculateHRA salaryDetails := by
  unfold calculateHRA
  refine ⟨⟨min_le_left _ _, le_trans (min_le_right _ _) (min_le_left _ _),
    le_trans (min_le_right _ _) (min_le_right _ _)⟩, ?_, ?_⟩
  · rcases le_total salaryDetails.hraReceived
      (min ((if salaryDetails.metroCity then (1 : ℚ)/2 else 2/5) * salaryDetails.basic)
        (max 0 (salaryDetails.rentPaid - 1/10 * salaryDetails.basic))) with h | h
    · exact Or.inl (min_eq_left h)
    · rw [min_eq_right h]
      rcases le_total
        ((if salaryDetails.metroCity then (1 : ℚ)/2 else 2/5) * salaryDetails.basic)
        (max 0 (salaryDetails.rentPaid - 1/10 * salaryDetails.basic)) with h2 | h2
      · exact Or.inr (Or.inl (min_eq_left h2))
      · exact Or.inr (Or.inr (min_eq_right h2))
  · refine le_min hh (le_min (mul_nonneg ?_ hb) (le_max_left _ _))
    split_ifs <;> norm_num

/-- Claim C8, witness: basic 50000, HRA received 25000, rent paid 20000 in a
metro city give an exemption of 15000, which is non-negative. -/
theorem calculateHRA_least_of_three_witness :
    (0 ≤ (50000 : ℚ) ∧ 0 ≤ (25000 : ℚ) ∧ 0 ≤ (20000 : ℚ)) ∧
    0 ≤ calculateHRA ⟨50000, 25000, 20000, true⟩ ∧
    calculateHRA ⟨50000, 25000, 20000, true⟩ = 15000 := by
  refine ⟨by norm_num, (calculateHRA_least_of_three ⟨50000, 25000, 20000, true⟩
    (by norm_num) (by norm_num) (by norm_num)).2.2, ?_⟩
  norm_num [calculateHRA, min_def, max_def]

/-- Claim C9: the page recommends the new regime exactly when the new-regime
tax is strictly lower than the old-regime tax, and recommends the old regime
when the two taxes are equal. -/
theorem recommendedRegime_new_iff_lt (newTax oldTax : ℚ) :
    (recommendedRegime newTax oldTax = "New Regime" ↔ newTax < oldTax) ∧
    (newTax = oldTax → recommendedRegime newTax oldTax = "Old Regime") := by
  constructor
  · unfold recommendedRegime
    split_ifs with h
    · exact ⟨fun _ => h, fun _ => rfl⟩
    · exact ⟨fun hlbl => absurd hlbl (by decide), fun hlt => absurd hlt h⟩
  · intro he
    unfold recommendedRegime
    rw [if_neg (by rw [he]; exact lt_irrefl oldTax)]

/-- Claim C9, witness: taxes 3 and 5 recommend the new regime; equal taxes
5 and 5 recommend the old regime. -/
theorem recommendedRegime_new_iff_lt_witness :
    recommendedRegime 3 5 = "New Regime" ∧ recommendedRegime 5 5 = "Old Regime" :=
  ⟨(recommendedRegime_new_iff_lt 3 5).1.mpr (by norm_num),
   (recommendedRegime_new_iff_lt 5 5).2 rfl⟩
